import Mathlib

/-!
Verification development for the ArchNets telegram-bot repository.

The Go sources are shallowly embedded as pure Lean functions:
  * time instants are integers (Unix seconds); `time.Now().After(e)` is `e < now`;
  * the in-memory session store (`internal/auth/session.go`, type `Store`)
    is a map `Int → Option Session`;
  * the SQLite-backed store (`SQLiteStore`) is a row map, its `Get` returning
    the read session together with the possibly mutated row map;
  * handlers with side effects are embedded as functions from an oracle
    environment (backend responses) to the list of emitted events.
-/

namespace ArchBot

/-- `auth.Session`: a user's authentication state. -/
structure Session where
  token : String
  lang : String
  expiresAt : Int
  deriving Repr, DecidableEq

/-- `Session.IsExpired`: `time.Now().After(s.ExpiresAt)`, i.e. `expiresAt < now`. -/
def Session.isExpired (now : Int) (s : Session) : Bool :=
  decide (s.expiresAt < now)

/-- The in-memory `Store`: a map from telegram id to a session. -/
def Store := Int → Option Session

/-- `Store.Set`: stores a session for a user. -/
def Store.set (st : Store) (id : Int) (s : Session) : Store :=
  fun j => if j = id then some s else st j

/-- `Store.Get`: retrieves a valid session; an expired session reads as absent. -/
def Store.get (now : Int) (st : Store) (id : Int) : Option Session :=
  match st id with
  | none => none
  | some s => if s.isExpired now then none else some s

/-- `Store.GetToken`: token for a user, or empty string if not found/expired. -/
def Store.getToken (now : Int) (st : Store) (id : Int) : String :=
  match Store.get now st id with
  | none => ""
  | some s => s.token

/-- `Store.GetLang`: cached language; reads the raw map, without expiry check. -/
def Store.getLang (st : Store) (id : Int) : String :=
  match st id with
  | none => ""
  | some s => s.lang

/-- `Store.SetLang`: updates the language of an existing session. -/
def Store.setLang (st : Store) (id : Int) (lang : String) : Store :=
  fun j => if j = id then (st j).map (fun s => { s with lang := lang }) else st j

/-- `Store.Delete`: removes a session. -/
def Store.delete (st : Store) (id : Int) : Store :=
  fun j => if j = id then none else st j

/-- The `SQLiteStore` rows: telegram id to (token, lang, expires_at). -/
def SqliteDB := Int → Option (String × String × Int)

/-- Row deletion, mirroring `SQLiteStore.Delete`. -/
def SqliteDB.delete (db : SqliteDB) (id : Int) : SqliteDB :=
  fun j => if j = id then none else db j

/-- `SQLiteStore.Get`: reads the row, and deletes it as a side effect when the
session is expired; returns the session (if valid) and the resulting row map. -/
def SqliteDB.get (now : Int) (db : SqliteDB) (id : Int) : Option Session × SqliteDB :=
  match db id with
  | none => (none, db)
  | some (tok, lang, exp) =>
    let s : Session := ⟨tok, lang, exp⟩
    if s.isExpired now then (none, db.delete id) else (some s, db)

/-- `SQLiteStore.GetToken`. -/
def SqliteDB.getToken (now : Int) (db : SqliteDB) (id : Int) : String :=
  match (db.get now id).1 with
  | none => ""
  | some s => s.token

/-- `SQLiteStore.GetLang`: goes through `Get`, hence checks expiry. -/
def SqliteDB.getLang (now : Int) (db : SqliteDB) (id : Int) : String :=
  match (db.get now id).1 with
  | none => ""
  | some s => s.lang

/-- Seven days, in seconds: the fixed session validity window
`time.Now().Add(7 * 24 * time.Hour)`. -/
def sevenDays : Int := 7 * 24 * 60 * 60

/-- `Authenticate` (forced refresh, `users` package): reads the previously
cached language first, then on backend success stores the new token together
with that language and a 7-day expiry. The backend outcome is the oracle
`backendToken`. Returns the new store and the token result. -/
def authenticateFlow (now : Int) (st : Store) (id : Int)
    (backendToken : Option String) : Store × Option String :=
  let existingLang := Store.getLang st id
  match backendToken with
  | none => (st, none)
  | some tok =>
    (Store.set st id { token := tok, lang := existingLang, expiresAt := now + sevenDays },
     some tok)

/-- The `WithAuth` middleware gate's store effect: skips when a valid token is
cached; otherwise on backend success stores the new token with a 7-day expiry
and the zero-value (empty) language field. -/
def withAuthStore (now : Int) (st : Store) (id : Int)
    (backendToken : Option String) : Store :=
  if Store.getToken now st id ≠ "" then st
  else
    match backendToken with
    | none => st
    | some tok =>
      Store.set st id { token := tok, lang := "", expiresAt := now + sevenDays }

/-! ## Backend error codes (`internal/api/codes.go`) -/

/-- `api.Success`. -/
def successCode : Int := 200

/-- `api.OrderStatusFinished` (order successfully completed). -/
def orderStatusFinished : Int := 5

/-- `api.IsAuthError`: the contiguous auth-error code range. -/
def IsAuthError (code : Int) : Bool :=
  decide (40002 ≤ code ∧ code ≤ 40007)

/-- A Go `error` value as seen by `ExecuteWithAuth`: either a typed backend
`*api.Error` carrying a code, or any other error. -/
inductive GoErr where
  | apiErr (code : Int)
  | otherErr
  deriving Repr, DecidableEq

/-- The type-switch `err.(*api.Error); ok && api.IsAuthError(apiErr.Code)`. -/
def GoErr.isAuthClass : GoErr → Bool
  | .apiErr code => IsAuthError code
  | .otherErr => false

/-! ## `ExecuteWithAuth` (`users` package, part_005) -/

/-- Observable events emitted by `ExecuteWithAuth`. -/
inductive Ev where
  | initialAuth (ok : Bool)
  | reauth (ok : Bool)
  | action (token : String)
  | deleteSession
  | sendMsg (key : String)
  deriving Repr, DecidableEq

/-- Oracle environment for one run of `ExecuteWithAuth`: the cached token at
entry, the outcome of each `Authenticate` call site, and the outcome of each
of the (at most two) invocations of `action`. -/
structure ExecEnv where
  cachedToken : String
  initialAuthResult : Option String
  reauthResult : Option String
  firstCall : String → Option GoErr
  secondCall : String → Option GoErr

/-- The body of `ExecuteWithAuth` after a token has been resolved: run the
action; on an auth-classified error re-authenticate once and retry once; on
any other error surface a generic error without retry. -/
def execBody (env : ExecEnv) (token : String) : List Ev :=
  match env.firstCall token with
  | none => [.action token]
  | some err =>
    Ev.action token ::
      (if err.isAuthClass then
        match env.reauthResult with
        | none => [.reauth false, .deleteSession, .sendMsg "session_expired"]
        | some t2 =>
          Ev.reauth true ::
            (match env.secondCall t2 with
            | none => [.action t2]
            | some _ => [.action t2, .sendMsg "traffic_error"])
      else [.sendMsg "traffic_error"])

/-- `ExecuteWithAuth`: resolve a token (authenticating when the cache is
empty), then run `execBody`. -/
def executeWithAuth (env : ExecEnv) : List Ev :=
  if env.cachedToken = "" then
    match env.initialAuthResult with
    | none => [.initialAuth false, .sendMsg "auth_error"]
    | some t => Ev.initialAuth true :: execBody env t
  else execBody env env.cachedToken

/-- The token the action is first invoked with, if any. -/
def entryToken (env : ExecEnv) : Option String :=
  if env.cachedToken = "" then env.initialAuthResult else some env.cachedToken

/-- Number of re-authentication attempts in a trace. -/
def reauthCount (tr : List Ev) : Nat :=
  (tr.filter fun e => match e with | .reauth _ => true | _ => false).length

/-- The tokens passed to the successive invocations of the action. -/
def actionTokens (tr : List Ev) : List String :=
  tr.filterMap fun e => match e with | .action t => some t | _ => none

/-! ## Purchase wizard (`users/purchase.go`) -/

/-- `api.SubscribeDiscount`: a backend-advertised (quantity, discount) tier. -/
structure SubscribeDiscount where
  quantity : Int
  discount : Int
  deriving Repr, DecidableEq

/-- `PurchaseState`: the per-user wizard state. -/
structure PurchaseState where
  planId : Int
  planName : String
  quantity : Int
  paymentId : Int
  paymentName : String
  planUnitPrice : Int
  unitTime : String
  discounts : List SubscribeDiscount
  deriving Repr, DecidableEq

/-- The quantity-option loop of `showQuantitySelection`: start from the base
unit `{Quantity: 1, Discount: 0}` and append every backend tier whose
quantity is not 1, in backend order. -/
def buildQuantityOptions (discounts : List SubscribeDiscount) : List SubscribeDiscount :=
  discounts.foldl
    (fun acc d => if d.quantity ≠ 1 then acc ++ [d] else acc)
    [{ quantity := 1, discount := 0 }]

/-- `api.SubscribePlan` (the fields used by the plan-browsing view). -/
structure Plan where
  id : Int
  name : String
  unitPrice : Int
  unitTime : String
  traffic : Int
  deviceLimit : Int
  discount : List SubscribeDiscount
  deriving Repr, DecidableEq

/-- Outcome of `showPlanPage`: either the empty-catalog message or the plan
displayed at a given index. -/
inductive PlanPageView where
  | noPlans
  | planShown (idx : Nat) (p : Plan)
  deriving Repr, DecidableEq

/-- `showPlanPage` on a successfully fetched catalog: empty catalog reports
"no plans available"; otherwise the page index is forced into bounds
(`page < 0 → 0`, `page ≥ len → len-1`) and that plan is displayed. -/
def showPlanPage (plans : List Plan) (page : Int) : PlanPageView :=
  match plans with
  | [] => .noPlans
  | p0 :: rest =>
    let n : Int := ((p0 :: rest).length : Int)
    let pg : Int := if page < 0 then 0 else if page ≥ n then n - 1 else page
    .planShown pg.toNat ((p0 :: rest).getD pg.toNat p0)

/-! ## Order confirmation (`confirmAndCreateOrder`) -/

/-- `api.CheckoutOrderResponse` fields used by the completion message. -/
structure CheckoutResp where
  type : String
  checkoutUrl : String
  deriving Repr, DecidableEq

/-- `api.OrderDetail` field used by the completion message. -/
structure OrderDetail where
  status : Int
  deriving Repr, DecidableEq

/-- The message finally edited into the chat: an i18n key, the order number
substituted into it, and the inline-keyboard buttons (label key, URL). -/
structure UiMessage where
  key : String
  orderNo : String
  buttons : List (String × String)
  deriving Repr, DecidableEq

/-- `orderDetail != nil && orderDetail.Status == api.OrderStatusFinished`. -/
def detailFinished (od : Option OrderDetail) : Bool :=
  match od with
  | some d => decide (d.status = orderStatusFinished)
  | none => false

/-- `checkoutResp != nil && checkoutResp.CheckoutURL != ""`, as the URL. -/
def checkoutUrlOf (c : Option CheckoutResp) : String :=
  match c with
  | some cr => cr.checkoutUrl
  | none => ""

/-- The three-way message choice at the end of `confirmAndCreateOrder`. -/
def chooseMessage (orderNo : String) (c : Option CheckoutResp)
    (od : Option OrderDetail) : UiMessage :=
  if detailFinished od then
    { key := "order_created_balance", orderNo := orderNo, buttons := [] }
  else if checkoutUrlOf c ≠ "" then
    { key := "order_created", orderNo := orderNo,
      buttons := [("btn_pay_now", checkoutUrlOf c)] }
  else
    { key := "order_pending", orderNo := orderNo, buttons := [] }

/-- Observable events of `confirmAndCreateOrder`, in program order. -/
inductive OrderEv where
  | createOrder
  | clearState
  | checkout (orderNo : String)
  | getDetail (orderNo : String)
  | showMessage (m : UiMessage)
  | showErrorCreating
  deriving Repr, DecidableEq

/-- Oracle environment for one run of `confirmAndCreateOrder`. -/
structure ConfirmEnv where
  wizardState : Option PurchaseState
  orderResult : Option String
  checkoutResult : Option CheckoutResp
  detailResult : Option OrderDetail

/-- `confirmAndCreateOrder` as an event trace: missing state or a failed
order creation aborts with an error message; otherwise the wizard state is
cleared right after the creation succeeds, then checkout and detail fetch
run (their failures only losing their data), and a completion message is
always shown. -/
def confirmAndCreateOrder (env : ConfirmEnv) : List OrderEv :=
  match env.wizardState with
  | none => [.showErrorCreating]
  | some _ =>
    match env.orderResult with
    | none => [.createOrder, .showErrorCreating]
    | some orderNo =>
      [.createOrder, .clearState, .checkout orderNo, .getDetail orderNo,
       .showMessage (chooseMessage orderNo env.checkoutResult env.detailResult)]

/-- Index of the first occurrence of an event in a trace. -/
def firstIdx (tr : List OrderEv) (e : OrderEv) : Option Nat :=
  match tr with
  | [] => none
  | x :: xs =>
    if x = e then some 0 else (firstIdx xs e).map (· + 1)

/-- `precedes tr a b`: both events occur, and the first occurrence of `a` is
strictly before the first occurrence of `b`. -/
def precedes (tr : List OrderEv) (a b : OrderEv) : Bool :=
  match firstIdx tr a, firstIdx tr b with
  | some i, some j => decide (i < j)
  | _, _ => false

/-! ## Wizard "back" callbacks with missing state -/

/-- Observable events of the back-callback handlers. -/
inductive UiEv where
  | ackCallback
  | planPage (page : Int)
  | quantitySelection
  | paymentSelection
  | warnLog
  deriving Repr, DecidableEq

/-- `HandleQuantityCallback`, action `back`: acknowledge and show the first
plan page, with no state lookup. -/
def qtyBack (_state : Option PurchaseState) : List UiEv :=
  [.ackCallback, .planPage 0]

/-- `HandlePaymentCallback`, action `back`: acknowledge; only when a wizard
state exists, re-show the quantity selection. -/
def payBack (state : Option PurchaseState) : List UiEv :=
  match state with
  | some _ => [.ackCallback, .quantitySelection]
  | none => [.ackCallback]

/-- `HandleOrderCallback`, action `back`: acknowledge; with no wizard state,
log a warning and show the first plan page; otherwise re-show payment
selection. -/
def orderBack (state : Option PurchaseState) : List UiEv :=
  match state with
  | none => [.ackCallback, .warnLog, .planPage 0]
  | some _ => [.ackCallback, .paymentSelection]

/-! ## Channel-membership gate (`middleware.go`) -/

/-- The member-status switch in `isChannelMember`. -/
def memberStatusAllows (s : String) : Bool :=
  if s = "member" ∨ s = "administrator" ∨ s = "creator" then true
  else if s = "left" ∨ s = "kicked" ∨ s = "restricted" then false
  else false

/-- Result of the `GetChatMember` query: a transport error or a status. -/
inductive MemberQuery where
  | queryFailed
  | status (s : String)
  deriving Repr, DecidableEq

/-- Outcome of the gate: either the wrapped handler runs, or a join prompt
for the required channel is sent and the handler is blocked. -/
inductive GateOutcome where
  | handlerRun
  | joinPrompt (channel : String)
  deriving Repr, DecidableEq

/-- `WithChannelMembership`: skip when no channel is configured or no user is
attached to the update; a failed membership query fails open; otherwise pass
iff the status is member/administrator/creator. -/
def withChannelMembership (requiredChannel : String) (userPresent : Bool)
    (q : MemberQuery) : GateOutcome :=
  if requiredChannel = "" then .handlerRun
  else if !userPresent then .handlerRun
  else
    match q with
    | .queryFailed => .handlerRun
    | .status s =>
      if memberStatusAllows s then .handlerRun
      else .joinPrompt requiredChannel

/-! ## Trace predicates for the back-callback handlers -/

/-- Whether a trace contains a redirect to plan browsing. -/
def hasPlanRedirect (tr : List UiEv) : Bool :=
  tr.any fun e => match e with | .planPage _ => true | _ => false

/-- Whether a trace contains a warning log. -/
def hasWarn (tr : List UiEv) : Bool :=
  tr.any fun e => match e with | .warnLog => true | _ => false

/-! ## Concrete fixtures used by witnesses and counterexamples -/

/-- A store holding one session that expires exactly at instant 100. -/
def storeBoundary : Store :=
  fun id => if id = 1 then some { token := "tok9", lang := "en", expiresAt := 100 } else none

/-- A store holding one session, with language "fa", already expired at 100. -/
def storeExpiredFa : Store :=
  fun id => if id = 1 then some { token := "old", lang := "fa", expiresAt := 50 } else none

/-- SQLite rows mirroring `storeExpiredFa`. -/
def dbExpiredFa : SqliteDB :=
  fun id => if id = 1 then some ("old", "fa", 50) else none

/-- A one-plan catalog entry. -/
def planA : Plan :=
  { id := 1, name := "basic", unitPrice := 10, unitTime := "month",
    traffic := 1073741824, deviceLimit := 3, discount := [] }

/-- A wizard state ready for confirmation. -/
def stateA : PurchaseState :=
  { planId := 1, planName := "basic", quantity := 3, paymentId := 2,
    paymentName := "balance", planUnitPrice := 10, unitTime := "month",
    discounts := [] }

/-- A run of `ExecuteWithAuth` where the cached token draws an auth-class
error, re-authentication succeeds, and the retry succeeds. -/
def envRetry : ExecEnv :=
  { cachedToken := "tokA", initialAuthResult := none,
    reauthResult := some "tokB",
    firstCall := fun _ => some (.apiErr 40003),
    secondCall := fun _ => none }

/-- A confirmation run where order creation succeeds and checkout returns an
external URL while the detail status stays pending. -/
def envConfirm : ConfirmEnv :=
  { wizardState := some stateA, orderResult := some "ORD1",
    checkoutResult := some { type := "url", checkoutUrl := "https://pay.example/1" },
    detailResult := some { status := 1 } }

/-- A confirmation run where the balance payment finished. -/
def envConfirmDone : ConfirmEnv :=
  { wizardState := some stateA, orderResult := some "ORD2",
    checkoutResult := some { type := "balance", checkoutUrl := "" },
    detailResult := some { status := 5 } }

/-- A confirmation run where both the checkout call and the detail fetch
failed. -/
def envConfirmPending : ConfirmEnv :=
  { wizardState := some stateA, orderResult := some "ORD3",
    checkoutResult := none, detailResult := none }

/-- A run of `ExecuteWithAuth` whose action fails with a non-auth error. -/
def envOther : ExecEnv :=
  { cachedToken := "tokC", initialAuthResult := none,
    reauthResult := none,
    firstCall := fun _ => some .otherErr,
    secondCall := fun _ => none }

/-! # Theorems -/

/-- Closed form of the quantity-option fold: appending the kept tiers equals
filtering them. -/
theorem quantityFold_eq_filter (ds acc : List SubscribeDiscount) :
    ds.foldl (fun acc d => if d.quantity ≠ 1 then acc ++ [d] else acc) acc
      = acc ++ ds.filter (fun d => decide (d.quantity ≠ 1)) := by
  induction ds generalizing acc with
  | nil => simp
  | cons d ds ih =>
    by_cases h : d.quantity ≠ 1
    · have hd : (decide (d.quantity ≠ 1)) = true := by simpa using h
      rw [List.foldl_cons, if_pos h, ih, List.filter_cons, hd]
      simp
    · have hd : (decide (d.quantity ≠ 1)) = false := by simpa using h
      rw [List.foldl_cons, if_neg h, ih, List.filter_cons, hd]
      simp

/-- C6: the quantity-option list is exactly one `{quantity 1, discount 0}`
entry placed first, followed by every advertised tier with quantity ≠ 1 in
backend order, and quantity 1 occurs exactly once even when the backend also
advertises a quantity-1 tier. -/
theorem C6_quantity_options (ds : List SubscribeDiscount) :
    buildQuantityOptions ds
      = { quantity := 1, discount := 0 } :: ds.filter (fun d => decide (d.quantity ≠ 1)) ∧
    (buildQuantityOptions ds).head? = some { quantity := 1, discount := 0 } ∧
    (buildQuantityOptions ds).countP (fun d => decide (d.quantity = 1)) = 1 := by
  have hmain : buildQuantityOptions ds
      = { quantity := 1, discount := 0 } :: ds.filter (fun d => decide (d.quantity ≠ 1)) := by
    unfold buildQuantityOptions
    simpa using quantityFold_eq_filter ds [{ quantity := 1, discount := 0 }]
  refine ⟨hmain, by rw [hmain]; rfl, ?_⟩
  rw [hmain]
  rw [List.countP_cons_of_pos _ _ (by decide)]
  have hz : (ds.filter (fun d => decide (d.quantity ≠ 1))).countP
      (fun d => decide (d.quantity = 1)) = 0 := by
    rw [List.countP_eq_zero]
    intro a ha
    have := List.of_mem_filter ha
    simpa using (by simpa using this : a.quantity ≠ 1)
  omega

/-- C7: for a non-empty catalog of length n the displayed plan index is
`clamp(page, 0, n-1)`, always in range; an empty catalog reports that no
plans are available. -/
theorem C7_plan_page_clamped (plans : List Plan) (page : Int) :
    (plans = [] → showPlanPage plans page = .noPlans) ∧
    (∀ p0 rest, plans = p0 :: rest →
      ∃ k : Nat, k < plans.length ∧
        (k : Int) = max 0 (min page ((plans.length : Int) - 1)) ∧
        showPlanPage plans page = .planShown k (plans.getD k p0)) := by
  constructor
  · intro h; subst h; rfl
  · intro p0 rest h
    subst h
    refine ⟨(if page < 0 then 0 else if page ≥ ((p0 :: rest).length : Int)
        then ((p0 :: rest).length : Int) - 1 else page).toNat, ?_, ?_, ?_⟩
    · have hn : 0 < (p0 :: rest).length := by simp
      split_ifs with h1 h2 <;> omega
    · have hn : 0 < (p0 :: rest).length := by simp
      rw [max_def, min_def]
      split_ifs with h1 h2 h3 h4 h5 h6 h7 <;> omega
    · rfl

/-- C9 counterexample: a session whose `expires_at` equals the current
instant is still returned by `Get` and its token by `GetToken`, refuting
"a session is valid iff now < expires_at". -/
theorem C9_boundary_counterexample :
    storeBoundary 1 = some { token := "tok9", lang := "en", expiresAt := 100 } ∧
    ¬ ((100 : Int) < 100) ∧
    Store.get 100 storeBoundary 1 = some { token := "tok9", lang := "en", expiresAt := 100 } ∧
    Store.getToken 100 storeBoundary 1 = "tok9" := by
  refine ⟨rfl, by omega, rfl, rfl⟩

/-- C9 (amended): `GetToken` returns "" for an absent session or one whose
`expires_at` is strictly in the past, and `Get` yields a session exactly when
one is stored and `now ≤ expires_at` (validity uses the strict `After`, so
the boundary instant still counts as valid). -/
theorem C9_getToken_validity (now : Int) (st : Store) (id : Int) :
    (st id = none → Store.getToken now st id = "") ∧
    (∀ s, st id = some s → s.expiresAt < now → Store.getToken now st id = "") ∧
    (∀ s, Store.get now st id = some s ↔ (st id = some s ∧ now ≤ s.expiresAt)) := by
  refine ⟨?_, ?_, ?_⟩
  · intro h
    simp [Store.getToken, Store.get, h]
  · intro s h hexp
    simp [Store.getToken, Store.get, h, Session.isExpired, hexp]
  · intro s
    unfold Store.get
    cases hst : st id with
    | none => simp
    | some s0 =>
      by_cases hc : s0.expiresAt < now
      · simp only [Session.isExpired, decide_eq_true_eq, hc, if_pos]
        constructor
        · intro h; exact absurd h (by simp)
        · rintro ⟨h1, h2⟩
          cases h1
          omega
      · simp only [Session.isExpired, decide_eq_true_eq, hc, if_neg]
        constructor
        · intro h
          cases h
          exact ⟨rfl, by omega⟩
        · rintro ⟨h1, _⟩
          cases h1
          rfl

/-- C9 witness: the amended statement applied at a concrete store. -/
theorem C9_getToken_validity_witness :
    Store.getToken 100 storeExpiredFa 2 = "" ∧
    Store.getToken 100 storeExpiredFa 1 = "" ∧
    Store.get 100 storeBoundary 1
      = some { token := "tok9", lang := "en", expiresAt := 100 } :=
  ⟨(C9_getToken_validity 100 storeExpiredFa 2).1 rfl,
   (C9_getToken_validity 100 storeExpiredFa 1).2.1
     { token := "old", lang := "fa", expiresAt := 50 } rfl (by decide),
   ((C9_getToken_validity 100 storeBoundary 1).2.2
     { token := "tok9", lang := "en", expiresAt := 100 }).mpr ⟨rfl, by decide⟩⟩

/-- C10: on an expired session the in-memory store's `GetLang` still returns
the cached language while its `GetToken` returns ""; the SQLite store's
`GetLang` goes through `Get`, which deletes the expired row, so it returns
"" — the two `SessionStore` implementations observably diverge. -/
theorem C10_getLang_divergence (now : Int) (st : Store) (db : SqliteDB)
    (id : Int) (s : Session) (hs : st id = some s) (hexp : s.expiresAt < now)
    (hdb : db id = some (s.token, s.lang, s.expiresAt)) :
    Store.getLang st id = s.lang ∧
    Store.getToken now st id = "" ∧
    SqliteDB.getLang now db id = "" ∧
    (SqliteDB.get now db id).2 id = none ∧
    (s.lang ≠ "" → Store.getLang st id ≠ SqliteDB.getLang now db id) := by
  have h1 : Store.getLang st id = s.lang := by
    simp [Store.getLang, hs]
  have h2 : Store.getToken now st id = "" := by
    simp [Store.getToken, Store.get, hs, Session.isExpired, hexp]
  have h3 : SqliteDB.getLang now db id = "" := by
    simp [SqliteDB.getLang, SqliteDB.get, hdb, Session.isExpired, hexp]
  have h4 : (SqliteDB.get now db id).2 id = none := by
    simp [SqliteDB.get, hdb, Session.isExpired, hexp, SqliteDB.delete]
  exact ⟨h1, h2, h3, h4, fun hl => by rw [h1, h3]; exact hl⟩

/-- C10 witness: the divergence at a concrete expired session. -/
theorem C10_getLang_divergence_witness :
    Store.getLang storeExpiredFa 1 = "fa" ∧
    Store.getToken 100 storeExpiredFa 1 = "" ∧
    SqliteDB.getLang 100 dbExpiredFa 1 = "" ∧
    Store.getLang storeExpiredFa 1 ≠ SqliteDB.getLang 100 dbExpiredFa 1 := by
  have h := C10_getLang_divergence 100 storeExpiredFa dbExpiredFa 1
    { token := "old", lang := "fa", expiresAt := 50 } rfl (by decide) rfl
  exact ⟨h.1, h.2.1, h.2.2.1, h.2.2.2.2 (by decide)⟩

/-- C7 witness: empty catalog, and page -1 on a one-plan catalog. -/
theorem C7_plan_page_clamped_witness :
    showPlanPage [] 5 = PlanPageView.noPlans ∧
    (∃ k : Nat, k < [planA].length ∧
      (k : Int) = max 0 (min (-1) (([planA].length : Int) - 1)) ∧
      showPlanPage [planA] (-1) = .planShown k ([planA].getD k planA)) :=
  ⟨(C7_plan_page_clamped [] 5).1 rfl,
   (C7_plan_page_clamped [planA] (-1)).2 planA [] rfl⟩

/-- The member-status switch passes exactly member/administrator/creator. -/
theorem memberStatusAllows_iff (s : String) :
    memberStatusAllows s = true ↔
      (s = "member" ∨ s = "administrator" ∨ s = "creator") := by
  unfold memberStatusAllows
  by_cases hd : s = "member" ∨ s = "administrator" ∨ s = "creator"
  · simp [hd]
  · rw [if_neg hd]
    split_ifs <;> simpa using hd

/-- C8: with a required channel configured, the gate runs the wrapped handler
iff the queried status is member, administrator or creator; all other
statuses (left, kicked, restricted, unrecognized) produce the join prompt;
a failed membership query fails open and the handler runs. -/
theorem C8_channel_gate (ch : String) (hch : ch ≠ "") :
    (∀ s, withChannelMembership ch true (.status s) = .handlerRun ↔
        (s = "member" ∨ s = "administrator" ∨ s = "creator")) ∧
    (∀ s, ¬(s = "member" ∨ s = "administrator" ∨ s = "creator") →
        withChannelMembership ch true (.status s) = .joinPrompt ch) ∧
    withChannelMembership ch true .queryFailed = .handlerRun := by
  have hred : ∀ q, withChannelMembership ch true q =
      (match q with
       | .queryFailed => .handlerRun
       | .status s =>
         if memberStatusAllows s then .handlerRun else .joinPrompt ch) := by
    intro q
    unfold withChannelMembership
    rw [if_neg hch]
    simp
  refine ⟨?_, ?_, ?_⟩
  · intro s
    rw [hred, ← memberStatusAllows_iff]
    by_cases hm : memberStatusAllows s = true
    · simp [hm]
    · simp [hm]
  · intro s hs
    have hm : memberStatusAllows s = false := by
      rw [← Bool.not_eq_true, memberStatusAllows_iff]
      exact hs
    rw [hred]
    simp [hm]
  · rw [hred]

/-- C8 witness: concrete statuses and a failed query on a configured
channel. -/
theorem C8_channel_gate_witness :
    (withChannelMembership "@Arch_Net" true (.status "member") = .handlerRun ↔
      ("member" = "member" ∨ "member" = "administrator" ∨ "member" = "creator")) ∧
    withChannelMembership "@Arch_Net" true (.status "left") = .joinPrompt "@Arch_Net" ∧
    withChannelMembership "@Arch_Net" true .queryFailed = .handlerRun :=
  ⟨(C8_channel_gate "@Arch_Net" (by decide)).1 "member",
   (C8_channel_gate "@Arch_Net" (by decide)).2.1 "left" (by decide),
   (C8_channel_gate "@Arch_Net" (by decide)).2.2⟩

/-- C5: after a successful order creation, a Finished detail status yields
the balance-success message with the order number and no buttons; otherwise a
non-empty checkout URL yields the success message with the Pay-Now button on
that URL; in every other case (including failed checkout or detail fetch,
embedded as `none` results) the pending message with the order number is
shown — the flow always ends in a shown message. -/
theorem C5_completion_message (env : ConfirmEnv) (st : PurchaseState)
    (n : String) (hs : env.wizardState = some st) (ho : env.orderResult = some n) :
    (detailFinished env.detailResult = true →
      confirmAndCreateOrder env =
        [.createOrder, .clearState, .checkout n, .getDetail n,
         .showMessage { key := "order_created_balance", orderNo := n, buttons := [] }]) ∧
    (detailFinished env.detailResult = false → checkoutUrlOf env.checkoutResult ≠ "" →
      confirmAndCreateOrder env =
        [.createOrder, .clearState, .checkout n, .getDetail n,
         .showMessage { key := "order_created", orderNo := n,
                        buttons := [("btn_pay_now", checkoutUrlOf env.checkoutResult)] }]) ∧
    (detailFinished env.detailResult = false → checkoutUrlOf env.checkoutResult = "" →
      confirmAndCreateOrder env =
        [.createOrder, .clearState, .checkout n, .getDetail n,
         .showMessage { key := "order_pending", orderNo := n, buttons := [] }]) := by
  refine ⟨?_, ?_, ?_⟩
  · intro h1
    simp [confirmAndCreateOrder, hs, ho, chooseMessage, h1]
  · intro h1 h2
    simp [confirmAndCreateOrder, hs, ho, chooseMessage, h1, h2]
  · intro h1 h2
    simp [confirmAndCreateOrder, hs, ho, chooseMessage, h1, h2]

/-- C5 witness: the three outcomes at concrete runs (external URL, finished
balance payment, and both follow-up calls failing). -/
theorem C5_completion_message_witness :
    confirmAndCreateOrder envConfirm =
      [.createOrder, .clearState, .checkout "ORD1", .getDetail "ORD1",
       .showMessage { key := "order_created", orderNo := "ORD1",
                      buttons := [("btn_pay_now", "https://pay.example/1")] }] ∧
    confirmAndCreateOrder envConfirmDone =
      [.createOrder, .clearState, .checkout "ORD2", .getDetail "ORD2",
       .showMessage { key := "order_created_balance", orderNo := "ORD2", buttons := [] }] ∧
    confirmAndCreateOrder envConfirmPending =
      [.createOrder, .clearState, .checkout "ORD3", .getDetail "ORD3",
       .showMessage { key := "order_pending", orderNo := "ORD3", buttons := [] }] := by
  refine ⟨?_, ?_, ?_⟩
  · have h := (C5_completion_message envConfirm stateA "ORD1" rfl rfl).2.1
      (by decide) (by decide)
    simpa using h
  · exact (C5_completion_message envConfirmDone stateA "ORD2" rfl rfl).1 (by decide)
  · exact (C5_completion_message envConfirmPending stateA "ORD3" rfl rfl).2.2
      (by decide) (by decide)

/-- C3 counterexample: in a successful confirmation run, the order-creation
call is issued first (index 0) and the wizard state is cleared only
afterwards (index 1): the state removal does not precede order creation. -/
theorem C3_clear_order_counterexample :
    firstIdx (confirmAndCreateOrder envConfirm) .createOrder = some 0 ∧
    firstIdx (confirmAndCreateOrder envConfirm) .clearState = some 1 ∧
    precedes (confirmAndCreateOrder envConfirm) .clearState .createOrder = false ∧
    precedes (confirmAndCreateOrder envConfirm) .createOrder .clearState = true := by
  decide

/-- C3 (amended): in every confirmation whose order creation succeeds, the
wizard state is cleared immediately after the order-creation call and before
the checkout call (the next external network side effect) and the detail
fetch. -/
theorem C3_clear_before_checkout (env : ConfirmEnv) (st : PurchaseState)
    (n : String) (hs : env.wizardState = some st) (ho : env.orderResult = some n) :
    confirmAndCreateOrder env =
      [.createOrder, .clearState, .checkout n, .getDetail n,
       .showMessage (chooseMessage n env.checkoutResult env.detailResult)] ∧
    firstIdx (confirmAndCreateOrder env) .createOrder = some 0 ∧
    firstIdx (confirmAndCreateOrder env) .clearState = some 1 ∧
    firstIdx (confirmAndCreateOrder env) (.checkout n) = some 2 := by
  have htr : confirmAndCreateOrder env =
      [.createOrder, .clearState, .checkout n, .getDetail n,
       .showMessage (chooseMessage n env.checkoutResult env.detailResult)] := by
    simp [confirmAndCreateOrder, hs, ho]
  refine ⟨htr, ?_, ?_, ?_⟩ <;> rw [htr] <;> simp [firstIdx]

/-- C3 witness: the amended statement at a concrete successful run. -/
theorem C3_clear_before_checkout_witness :
    confirmAndCreateOrder envConfirmDone =
      [.createOrder, .clearState, .checkout "ORD2", .getDetail "ORD2",
       .showMessage (chooseMessage "ORD2" envConfirmDone.checkoutResult
         envConfirmDone.detailResult)] ∧
    firstIdx (confirmAndCreateOrder envConfirmDone) .clearState = some 1 :=
  ⟨(C3_clear_before_checkout envConfirmDone stateA "ORD2" rfl rfl).1,
   (C3_clear_before_checkout envConfirmDone stateA "ORD2" rfl rfl).2.2.1⟩

/-- C4: the code evaluated at the failing input: a pay:back callback with no
wizard state only acknowledges the callback — no redirect to plan browsing
and no warning is produced — and qty:back, though it always shows the plan
page, logs no warning either; only order:back implements the full recovery
policy of redirect plus warning. -/
theorem C4_payBack_missing_state :
    payBack none = [UiEv.ackCallback] ∧
    hasPlanRedirect (payBack none) = false ∧
    hasWarn (payBack none) = false ∧
    hasWarn (qtyBack none) = false ∧
    orderBack none = [UiEv.ackCallback, UiEv.warnLog, UiEv.planPage 0] := by
  decide

/-- C2 counterexample: a user whose expired in-memory session still caches
language "fa" re-authenticates through the WithAuth middleware gate; the
freshly stored session carries an empty language field, so the cached
language is lost on that path. -/
theorem C2_middleware_lang_counterexample :
    Store.getLang storeExpiredFa 1 = "fa" ∧
    Store.getToken 100 storeExpiredFa 1 = "" ∧
    Store.getToken 150 (withAuthStore 100 storeExpiredFa 1 (some "new")) 1 = "new" ∧
    Store.getLang (withAuthStore 100 storeExpiredFa 1 (some "new")) 1 = "" := by
  decide

/-- C2 (amended): forced refresh via `Authenticate` stores a session whose
language equals the previously cached language and whose expiry is 7 days
from issuance; the auth-middleware gate instead stores the new token with a
7-day expiry and an empty language field, so it preserves a cached language
only when that cache is empty. -/
theorem C2_reauth_preserves_lang (now : Int) (st : Store) (id : Int) (tok : String) :
    ((authenticateFlow now st id (some tok)).1 id =
        some { token := tok, lang := Store.getLang st id,
               expiresAt := now + sevenDays }) ∧
    ((authenticateFlow now st id (some tok)).2 = some tok) ∧
    (Store.getToken now st id = "" →
      withAuthStore now st id (some tok) id =
        some { token := tok, lang := "", expiresAt := now + sevenDays }) := by
  refine ⟨?_, rfl, ?_⟩
  · simp [authenticateFlow, Store.set]
  · intro h
    simp [withAuthStore, h, Store.set]

/-- C2 witness: the amended statement at a concrete expired session with a
cached language. -/
theorem C2_reauth_preserves_lang_witness :
    (authenticateFlow 100 storeExpiredFa 1 (some "new")).1 1 =
      some { token := "new", lang := "fa", expiresAt := 100 + sevenDays } ∧
    withAuthStore 100 storeExpiredFa 1 (some "new") 1 =
      some { token := "new", lang := "", expiresAt := 100 + sevenDays } := by
  have h := C2_reauth_preserves_lang 100 storeExpiredFa 1 "new"
  exact ⟨by rw [h.1]; decide, h.2.2 (by decide)⟩

/-- The trace of `ExecuteWithAuth` is the body trace, possibly preceded by a
successful initial authentication. -/
theorem exec_trace_shape (env : ExecEnv) (t : String)
    (ht : entryToken env = some t) :
    executeWithAuth env = execBody env t ∨
    executeWithAuth env = Ev.initialAuth true :: execBody env t := by
  unfold entryToken at ht
  unfold executeWithAuth
  by_cases hc : env.cachedToken = ""
  · rw [if_pos hc] at ht
    rw [if_pos hc, ht]
    right
    rfl
  · rw [if_neg hc] at ht
    rw [if_neg hc]
    left
    rw [Option.some.injEq] at ht
    rw [ht]

/-- The body of `ExecuteWithAuth`: an auth-classified first failure leads to
exactly one re-authentication, with exactly one retry carrying the refreshed
token on reauth success, and session deletion plus the session-expired
message on reauth failure; any other first failure is surfaced with no
retry and no re-authentication. -/
theorem execBody_spec (env : ExecEnv) (t : String) :
    (∀ c, env.firstCall t = some (GoErr.apiErr c) → IsAuthError c = true →
      reauthCount (execBody env t) = 1 ∧
      (∀ t2, env.reauthResult = some t2 →
        actionTokens (execBody env t) = [t, t2]) ∧
      (env.reauthResult = none →
        actionTokens (execBody env t) = [t] ∧
        Ev.deleteSession ∈ execBody env t ∧
        Ev.sendMsg "session_expired" ∈ execBody env t)) ∧
    (∀ e, env.firstCall t = some e → e.isAuthClass = false →
      reauthCount (execBody env t) = 0 ∧
      actionTokens (execBody env t) = [t] ∧
      Ev.sendMsg "traffic_error" ∈ execBody env t) := by
  constructor
  · intro c hfc hauth
    have hcls : (GoErr.apiErr c).isAuthClass = true := by
      simp [GoErr.isAuthClass, hauth]
    unfold execBody
    rw [hfc]
    simp only [hcls, if_true]
    cases hre : env.reauthResult with
    | none =>
      refine ⟨by simp [reauthCount], ?_, ?_⟩
      · intro t2 h3
        exact absurd h3 (by simp)
      · intro _
        exact ⟨by simp [actionTokens], by simp, by simp⟩
    | some t2 =>
      refine ⟨?_, ?_, ?_⟩
      · cases hsc : env.secondCall t2 <;> simp [reauthCount, hsc]
      · intro t3 h3
        rw [Option.some.injEq] at h3
        subst h3
        cases hsc : env.secondCall t2 <;> simp [actionTokens, hsc]
      · intro h3
        exact absurd h3 (by simp)
  · intro e hfc hcls
    unfold execBody
    rw [hfc]
    simp only [hcls, Bool.false_eq_true, if_false]
    exact ⟨by simp [reauthCount], by simp [actionTokens], by simp⟩

/-- C1: through `ExecuteWithAuth`, an action failure carrying a backend code
in the auth-error range (40002-40007, per `IsAuthError`) triggers exactly one
re-authentication and exactly one retry with the new token; a failed
re-authentication deletes the session and surfaces the session-expired
message with no retry; a failure outside that classification is surfaced
with no retry and no re-authentication. -/
theorem C1_executeWithAuth_retry (env : ExecEnv) (t : String)
    (ht : entryToken env = some t) :
    (∀ c, env.firstCall t = some (GoErr.apiErr c) → IsAuthError c = true →
      reauthCount (executeWithAuth env) = 1 ∧
      (∀ t2, env.reauthResult = some t2 →
        actionTokens (executeWithAuth env) = [t, t2]) ∧
      (env.reauthResult = none →
        actionTokens (executeWithAuth env) = [t] ∧
        Ev.deleteSession ∈ executeWithAuth env ∧
        Ev.sendMsg "session_expired" ∈ executeWithAuth env)) ∧
    (∀ e, env.firstCall t = some e → e.isAuthClass = false →
      reauthCount (executeWithAuth env) = 0 ∧
      actionTokens (executeWithAuth env) = [t] ∧
      Ev.sendMsg "traffic_error" ∈ executeWithAuth env) := by
  rcases exec_trace_shape env t ht with hrun | hrun
  · rw [hrun]
    exact execBody_spec env t
  · constructor
    · intro c h1 h2
      obtain ⟨ha, hb, hc2⟩ := (execBody_spec env t).1 c h1 h2
      refine ⟨?_, ?_, ?_⟩
      · rw [hrun]
        simpa [reauthCount] using ha
      · intro t2 h3
        rw [hrun]
        simpa [actionTokens] using hb t2 h3
      · intro h3
        obtain ⟨x, y, z⟩ := hc2 h3
        exact ⟨by rw [hrun]; simpa [actionTokens] using x,
               by rw [hrun]; exact List.mem_cons_of_mem _ y,
               by rw [hrun]; exact List.mem_cons_of_mem _ z⟩
    · intro e h1 h2
      obtain ⟨ha, hb, hc2⟩ := (execBody_spec env t).2 e h1 h2
      exact ⟨by rw [hrun]; simpa [reauthCount] using ha,
             by rw [hrun]; simpa [actionTokens] using hb,
             by rw [hrun]; exact List.mem_cons_of_mem _ hc2⟩

/-- C1 witness: a cached token drawing code 40003 is refreshed once and
retried once with the new token; a non-auth error is surfaced with no
re-authentication. -/
theorem C1_executeWithAuth_retry_witness :
    (reauthCount (executeWithAuth envRetry) = 1 ∧
      actionTokens (executeWithAuth envRetry) = ["tokA", "tokB"]) ∧
    (reauthCount (executeWithAuth envOther) = 0 ∧
      actionTokens (executeWithAuth envOther) = ["tokC"] ∧
      Ev.sendMsg "traffic_error" ∈ executeWithAuth envOther) := by
  have h1 := (C1_executeWithAuth_retry envRetry "tokA" (by decide)).1
    40003 rfl (by decide)
  have h2 := (C1_executeWithAuth_retry envOther "tokC" (by decide)).2
    GoErr.otherErr rfl (by decide)
  exact ⟨⟨h1.1, h1.2.1 "tokB" rfl⟩, h2⟩

end ArchBot
